import Mathlib

/-!
Shallow embedding of `src/common/DOMWorld.ts` (puppeteer): the `DOMWorld`
execution-context lifecycle tracker, the `WaitTask` scheduler, and the remote
polling loop `waitForPredicatePageFunction`, together with proofs settling the
specification claims.

Modelling conventions:
* JS handles (`JSHandle`) are identified by `Nat` ids; execution contexts
  (realms) are identified by `Nat` ids as well.
* A JS promise's completion state is a first-write-wins slot (`Option`):
  `resolve`/`reject` on an already settled promise is a no-op, exactly as for
  a real promise's executor callbacks.
* The remote evaluate call issued by `WaitTask.rerun` is asynchronous; its
  outcome is delivered later as an explicit `EvalResult` (success handle or
  error).  The tail of `rerun` after the `await` is the pure function
  `handleRerunResponse`, translated line by line from the source.
-/

namespace DOMWorldSpec

/-- Does the second character list start with the first? (helper for the
substring test used to classify error messages). -/
def startsWithL : List Char → List Char → Bool
  | [], _ => true
  | _ :: _, [] => false
  | p :: ps, c :: cs => p == c && startsWithL ps cs

/-- Does `pat` occur as a contiguous sublist of the second list? -/
def occursL (pat : List Char) : List Char → Bool
  | [] => pat.isEmpty
  | c :: cs => startsWithL pat (c :: cs) || occursL pat cs

/-- JS `String.prototype.includes`: does `pat` occur inside `s`? -/
def includesSub (s pat : String) : Bool :=
  occursL pat.toList s.toList

/-- A JS error value: its class name and its message. -/
structure JsError where
  name : String
  message : String
deriving DecidableEq, Repr

/-- The settled state of a `WaitTask`'s `promise`: resolved with a handle or
rejected with an error. -/
inductive Settled where
  | resolved (handle : Nat)
  | rejected (e : JsError)
deriving DecidableEq, Repr

/-- `resolve` on a completion slot: first write wins, later calls are no-ops. -/
def settleResolve (slot : Option Settled) (h : Nat) : Option Settled :=
  match slot with
  | none => some (Settled.resolved h)
  | some s => some s

/-- `reject` on a completion slot: first write wins, later calls are no-ops. -/
def settleReject (slot : Option Settled) (e : JsError) : Option Settled :=
  match slot with
  | none => some (Settled.rejected e)
  | some s => some s

/-- The `polling` argument of the `WaitTask` constructor: a string or a
number (`string | number` in the source). -/
inductive PollingInput where
  | str (s : String)
  | num (n : Int)
deriving DecidableEq, Repr

/-- State of one `WaitTask`.  `inCollection` models membership in the owning
world's `_waitTasks` set; `timerActive` models the armed local timeout timer
(`_timeoutTimer` not yet fired or cleared); `promise` is the completion slot
handed to the caller. -/
structure WaitTask where
  runCount : Nat
  terminated : Bool
  promise : Option Settled
  timerActive : Bool
  inCollection : Bool
  title : String
  timeout : Nat
  polling : PollingInput
deriving DecidableEq, Repr

/-- `WaitTask._cleanup`: `clearTimeout(this._timeoutTimer)` and
`this._domWorld._waitTasks.delete(this)`. -/
def cleanupTask (t : WaitTask) : WaitTask :=
  { t with timerActive := false, inCollection := false }

/-- `WaitTask.terminate(error)`: set `_terminated`, reject the promise, then
`_cleanup`. -/
def terminateTask (t : WaitTask) (e : JsError) : WaitTask :=
  cleanupTask { t with terminated := true, promise := settleReject t.promise e }

/-- Outcome of the remote `evaluateHandle(waitForPredicatePageFunction, ...)`
call awaited inside `WaitTask.rerun`. -/
inductive EvalResult where
  | success (handle : Nat)
  | failure (e : JsError)
deriving DecidableEq, Repr

/-- Whether an `EvalResult` carries a handle (`success` is non-null in the
source). -/
def EvalResult.isSuccess : EvalResult → Bool
  | EvalResult.success _ => true
  | EvalResult.failure _ => false

/-- First transient-realm error pattern tested by `rerun`. -/
def realmDeathMsg1 : String := "Execution context was destroyed"

/-- Second transient-realm error pattern tested by `rerun`. -/
def realmDeathMsg2 : String := "Cannot find context with specified id"

/-- An error classified by `rerun` as the realm dying mid-call. -/
def isRealmDeathError (e : JsError) : Bool :=
  includesSub e.message realmDeathMsg1 || includesSub e.message realmDeathMsg2

/-- Result of running the response-handling tail of `rerun`: the updated task
state, whether `success.dispose()` was called, and whether `_cleanup` ran. -/
structure RerunOutcome where
  task : WaitTask
  disposed : Bool
  cleanedUp : Bool
deriving DecidableEq, Repr

/-- The tail of `WaitTask.rerun` after the awaited evaluate call returns,
translated line by line from the source.  `n` is the `runCount` captured when
this run started; `t` is the task state at response-arrival time;
`falsyCheck` is the result of the remote falsiness probe
`this._domWorld.evaluate((s) => !s, success).catch(() => true)` (true when
the returned handle is falsy, or when that probe itself failed). -/
def handleRerunResponse (t : WaitTask) (n : Nat) (res : EvalResult)
    (falsyCheck : Bool) : RerunOutcome :=
  if t.terminated || n != t.runCount then
    { task := t, disposed := res.isSuccess, cleanedUp := false }
  else
    match res with
    | EvalResult.success h =>
      if falsyCheck then
        { task := t, disposed := true, cleanedUp := false }
      else
        { task := cleanupTask { t with promise := settleResolve t.promise h },
          disposed := false, cleanedUp := true }
    | EvalResult.failure e =>
      if includesSub e.message realmDeathMsg1 then
        { task := t, disposed := false, cleanedUp := false }
      else if includesSub e.message realmDeathMsg2 then
        { task := t, disposed := false, cleanedUp := false }
      else
        { task := cleanupTask { t with promise := settleReject t.promise e },
          disposed := false, cleanedUp := true }

/-- A sample task used by witnesses: its second run has already started. -/
def sampleTask2 : WaitTask :=
  { runCount := 2, terminated := false, promise := none, timerActive := true,
    inCollection := true, title := "function", timeout := 30000,
    polling := PollingInput.str "raf" }

/-- A sample task used by witnesses: on its first run. -/
def sampleTask1 : WaitTask :=
  { runCount := 1, terminated := false, promise := none, timerActive := true,
    inCollection := true, title := "function", timeout := 30000,
    polling := PollingInput.str "mutation" }

/-- A sample transient realm-death error. -/
def sampleRealmErr : JsError :=
  { name := "Error",
    message := "Protocol error (Runtime.callFunctionOn): Execution context was destroyed." }

/-!
### The `DOMWorld` state

`contextGen` is the generation number of the current `_contextPromise`: every
`_setContext(null)` creates a fresh pending promise, modelled by bumping the
generation.  `resolutions g` records what generation `g`'s promise was
fulfilled with (`none` = still pending; the source has no code path that
rejects `_contextPromise`).  `callbackPresent` models
`_contextResolveCallback` being non-null.  `documentPromise` caches, by
generation, which context promise the cached document derivation chains from.
-/

/-- The `DOMWorld` state. -/
structure World where
  frameUrl : String
  documentPromise : Option Nat
  contextGen : Nat
  callbackPresent : Bool
  resolutions : Nat → Option Nat
  detached : Bool
  tasks : List (Nat × WaitTask)

/-- `_setContext(null)`: clear the document cache and install a fresh pending
`_contextPromise`, capturing its fulfill callback. -/
def unbindW (w : World) : World :=
  { w with
    documentPromise := none
    contextGen := w.contextGen + 1
    callbackPresent := true }

/-- The world after creating a `DOMWorld` (the constructor runs
`_setContext(null)` on a world with empty fields). -/
def initWorld (url : String) : World :=
  unbindW { frameUrl := url, documentPromise := none, contextGen := 0,
            callbackPresent := false, resolutions := fun _ => none,
            detached := false, tasks := [] }

/-- The world state produced by a successful `_setContext(context)` with a
non-null context: the captured callback fulfills the current
`_contextPromise` with the context, the callback slot is nulled, and every
registered `WaitTask` has `rerun()` invoked (its run counter is bumped by the
synchronous prefix of `rerun`). -/
def bindWorld (w : World) (c : Nat) : World :=
  { w with
    resolutions := fun g => if g = w.contextGen then some c else w.resolutions g,
    callbackPresent := false,
    tasks := w.tasks.map (fun p =>
      if p.2.inCollection then (p.1, { p.2 with runCount := p.2.runCount + 1 })
      else p) }

/-- The evaluate calls issued by the reruns a bind triggers: one per
registered task, tagged with that task's bumped run counter. -/
def bindCalls (w : World) : List (Nat × Nat) :=
  (w.tasks.filter (fun p => p.2.inCollection)).map
    (fun p => (p.1, p.2.runCount + 1))

/-- `_setContext(context)` with a non-null context.  The source calls
`this._contextResolveCallback.call(null, context)` unconditionally; when the
callback slot is null (already bound) this throws a `TypeError` before any
state is mutated. -/
def bindW (w : World) (c : Nat) : Except String (World × List (Nat × Nat)) :=
  if w.callbackPresent then Except.ok (bindWorld w c, bindCalls w)
  else Except.error "TypeError: Cannot read properties of null (reading call)"

/-- Message of the error thrown by `executionContext()` on a detached world. -/
def detachedCtxMsg (url : String) : String :=
  "Execution Context is not available in detached frame \"" ++ url ++
    "\" (are you trying to evaluate?)"

/-- `executionContext()`: throws if the world is detached, otherwise returns
the current `_contextPromise` (identified by its generation). -/
def executionContextW (w : World) : Except JsError Nat :=
  if w.detached then
    Except.error { name := "Error", message := detachedCtxMsg w.frameUrl }
  else Except.ok w.contextGen

/-- `_document()`: return the cached document promise if present, otherwise
derive one from `executionContext()` and cache it.  The returned generation
identifies which context promise the document handle chains from. -/
def documentCallW (w : World) : Except JsError (World × Nat) :=
  match w.documentPromise with
  | some g0 => Except.ok (w, g0)
  | none =>
    match executionContextW w with
    | Except.error e => Except.error e
    | Except.ok g => Except.ok ({ w with documentPromise := some g }, g)

/-- Update the task registered under `id` (the identity of a `WaitTask`
object). -/
def updateTask (w : World) (id : Nat) (f : WaitTask → WaitTask) : World :=
  { w with tasks := w.tasks.map (fun p => if p.1 = id then (p.1, f p.2) else p) }

/-- Arrival of the evaluate response for the run of task `id` tagged `n`. -/
def deliverResponse (w : World) (id n : Nat) (res : EvalResult)
    (falsyCheck : Bool) : World :=
  updateTask w id (fun t => (handleRerunResponse t n res falsyCheck).task)

/-- The `TimeoutError` built by the `WaitTask` constructor. -/
def timeoutErrorFor (title : String) (timeout : Nat) : JsError :=
  { name := "TimeoutError",
    message := "waiting for " ++ title ++ " failed: timeout " ++
      toString timeout ++ "ms exceeded" }

/-- The local timeout timer of task `id` fires: if it was not cleared, run
`terminate(timeoutError)`. -/
def fireTimeout (w : World) (id : Nat) : World :=
  updateTask w id (fun t =>
    if t.timerActive then terminateTask t (timeoutErrorFor t.title t.timeout)
    else t)

/-- The detachment error `_detach` terminates tasks with. -/
def detachError : JsError :=
  { name := "Error", message := "waitForFunction failed: frame got detached." }

/-- `_detach()`: set the detached flag and `terminate` every registered task
with the detachment error (each terminate rejects and deregisters). -/
def detachW (w : World) : World :=
  { w with
    detached := true
    tasks := w.tasks.map (fun p =>
      if p.2.inCollection then (p.1, terminateTask p.2 detachError) else p) }

/-- The polling-option validation at the top of the `WaitTask` constructor. -/
def validatePolling : PollingInput → Except String Unit
  | PollingInput.str s =>
    if s = "raf" || s = "mutation" then Except.ok ()
    else Except.error ("Unknown polling option: " ++ s)
  | PollingInput.num n =>
    if 0 < n then Except.ok ()
    else Except.error ("Cannot poll with non-positive interval: " ++ toString n)

/-- A freshly constructed task right after the synchronous prefix of its
first `rerun()` bumped the counter to 1: pending, registered, timer armed
when `timeout` is non-zero (`if (timeout)` in the source). -/
def newTask (polling : PollingInput) (title : String) (timeout : Nat) : WaitTask :=
  { runCount := 1, terminated := false, promise := none,
    timerActive := timeout != 0, inCollection := true,
    title := title, timeout := timeout, polling := polling }

/-- The `WaitTask` constructor: validate polling (throwing synchronously on a
bad option), register the task, arm the timer, and start the first run.  On a
detached world, `executionContext()` throws synchronously inside `rerun`, so
the error path of the response handler runs before the constructor returns
and no remote call is issued (the returned tag is `none`); otherwise run 1 is
in flight (tag `some 1`). -/
def createWaitTask (w : World) (polling : PollingInput) (title : String)
    (timeout : Nat) (id : Nat) : Except String (World × Option Nat) :=
  match validatePolling polling with
  | Except.error e => Except.error e
  | Except.ok _ =>
    let w1 : World :=
      { w with tasks := w.tasks ++ [(id, newTask polling title timeout)] }
    if w.detached then
      Except.ok
        (deliverResponse w1 id 1
          (EvalResult.failure { name := "Error", message := detachedCtxMsg w.frameUrl })
          false,
         none)
    else Except.ok (w1, some 1)

/-!
### Reachable world states and their invariants
-/

/-- World states reachable through the operations of the modelled core:
construction, `_setContext(null)`, successful `_setContext(context)`,
`_detach`, `_document`, `WaitTask` construction, evaluate-response arrival,
and timeout-timer firing. -/
inductive Reachable : World → Prop where
  | init (url : String) : Reachable (initWorld url)
  | unbind {w : World} (h : Reachable w) : Reachable (unbindW w)
  | bind {w : World} (c : Nat) {w' : World} {calls : List (Nat × Nat)}
      (h : Reachable w) (hb : bindW w c = Except.ok (w', calls)) : Reachable w'
  | detach {w : World} (h : Reachable w) : Reachable (detachW w)
  | doc {w w' : World} {g : Nat} (h : Reachable w)
      (hd : documentCallW w = Except.ok (w', g)) : Reachable w'
  | create {w : World} (pol : PollingInput) (ti : String) (tmo : Nat) (id : Nat)
      {w' : World} {pend : Option Nat} (h : Reachable w)
      (hc : createWaitTask w pol ti tmo id = Except.ok (w', pend)) : Reachable w'
  | deliver {w : World} (id n : Nat) (res : EvalResult) (fc : Bool)
      (h : Reachable w) : Reachable (deliverResponse w id n res fc)
  | timer {w : World} (id : Nat) (h : Reachable w) : Reachable (fireTimeout w id)

/-- Invariants of reachable worlds: the cached document promise always chains
from the current context-promise generation; generations newer than the
current one are unresolved; the current promise is pending exactly when the
fulfill callback is still captured (unbound state), and resolved once bound;
and every registered task is pending and unterminated. -/
structure WorldInv (w : World) : Prop where
  docGen : ∀ g, w.documentPromise = some g → g = w.contextGen
  futureGens : ∀ g, w.contextGen < g → w.resolutions g = none
  unboundPending : w.callbackPresent = true → w.resolutions w.contextGen = none
  boundResolved : w.callbackPresent = false → ∃ c, w.resolutions w.contextGen = some c
  regPending : ∀ p ∈ w.tasks, p.2.inCollection = true →
    p.2.promise = none ∧ p.2.terminated = false

/-- A sample world with one bound context and two registered tasks. -/
def wTasks : World :=
  { frameUrl := "about:blank", documentPromise := none, contextGen := 1,
    callbackPresent := true, resolutions := fun _ => none, detached := false,
    tasks := [(0, sampleTask1), (1, sampleTask2)] }

/-- The freshly created world used by the C8 counterexample. -/
def c8World0 : World := initWorld "about:blank"

/-- The world after `_document()` was called while unbound: the document
cache chains from the pending context promise of generation 1. -/
def c8World1 : World := { c8World0 with documentPromise := some c8World0.contextGen }

/-- The world after binding context 3 on a fresh world. -/
def wStep1 : World := bindWorld (initWorld "about:blank") 3

/-- The world after additionally registering a wait task (run 1 in flight). -/
def wReach2 : World :=
  { wStep1 with
    tasks := wStep1.tasks ++ [(0, newTask (PollingInput.str "raf") "function" 50)] }

/-!
### The remote poll loop (`waitForPredicatePageFunction`)

Predicate evaluations are modelled as `Option Nat`: `none` is a falsy result,
`some v` a truthy success value.  The promise returned by each strategy is a
first-write-wins slot of type `Option (Option Nat)`: `none` = still pending,
`some (some v)` = fulfilled with the success value, `some none` = fulfilled
with the empty sentinel (`fulfill()` with no argument).  No strategy ever
captures a reject callback, so rejection is impossible by construction.
-/

/-- One call of the `fulfill` callback captured by `new Promise((x) =>
(fulfill = x))`: a promise fulfills at most once, later calls are no-ops. -/
def fulfillSlot (s : Option (Option Nat)) (v : Option Nat) : Option (Option Nat) :=
  match s with
  | none => some v
  | some x => some x

/-- State of one `pollMutation` invocation: the result promise's slot and
whether the `MutationObserver` is installed and connected. -/
structure MutationPoll where
  settled : Option (Option Nat)
  connected : Bool
deriving DecidableEq, Repr

/-- The `MutationObserver` callback of `pollMutation`, translated line by
line: it first checks the timed-out flag — disconnecting and fulfilling the
empty sentinel, with no early return — and then re-evaluates the predicate,
disconnecting and fulfilling with the success value if truthy (a no-op on the
promise when the sentinel was already fulfilled). -/
def mutationCallback (st : MutationPoll) (timedOut : Bool)
    (predResult : Option Nat) : MutationPoll :=
  let st1 := if timedOut then
    { settled := fulfillSlot st.settled none, connected := false }
  else st
  match predResult with
  | some v => { settled := fulfillSlot st1.settled (some v), connected := false }
  | none => st1

/-- One observed mutation batch: the callback fires only while the observer
is connected. -/
def mutationStep (st : MutationPoll) (ev : Bool × Option Nat) : MutationPoll :=
  if st.connected then mutationCallback st ev.1 ev.2 else st

/-- A complete `pollMutation` invocation over its environment: `p0` is the
immediate first predicate evaluation (success returns without installing the
observer); `events` lists the mutation batches that occur afterwards, each
carrying the value of the remote timed-out flag at that batch and the
predicate's result there.  Nothing runs at the instant the remote deadline
fires: `setTimeout(() => (timedOut = true), timeout)` only sets the flag,
which only the mutation callback reads. -/
def pollMutationRun (p0 : Option Nat) (events : List (Bool × Option Nat)) :
    MutationPoll :=
  match p0 with
  | some v => { settled := some (some v), connected := false }
  | none => events.foldl mutationStep { settled := none, connected := true }

/-- State of one `pollRaf` / `pollInterval` invocation: the result promise's
slot and whether another iteration is scheduled. -/
structure TickPoll where
  settled : Option (Option Nat)
  looping : Bool
deriving DecidableEq, Repr

/-- One iteration of `onRaf` / `onTimeout` (the two differ only in the
re-scheduling primitive, `requestAnimationFrame` versus `setTimeout`): check
the timed-out flag first and fulfill the sentinel, returning; else evaluate
the predicate, fulfilling on success and re-scheduling otherwise. -/
def tickStep (st : TickPoll) (ev : Bool × Option Nat) : TickPoll :=
  if st.looping then
    if ev.1 then { settled := fulfillSlot st.settled none, looping := false }
    else
      match ev.2 with
      | some v => { settled := fulfillSlot st.settled (some v), looping := false }
      | none => st
  else st

/-- A complete `pollRaf` invocation over the finite list of animation-frame
iterations that occur (the first entry is the immediate initial `onRaf`
call). -/
def pollRafRun (ticks : List (Bool × Option Nat)) : TickPoll :=
  ticks.foldl tickStep { settled := none, looping := true }

/-- A complete `pollInterval` invocation over the finite list of timer
iterations that occur (the first entry is the immediate initial `onTimeout`
call). -/
def pollIntervalRun (ticks : List (Bool × Option Nat)) : TickPoll :=
  ticks.foldl tickStep { settled := none, looping := true }

/-- C1: a rerun response arriving after the task was terminated, or after a
newer run started (its tag `n` differs from the stored run counter), is
discarded: the returned handle (if any) is disposed, the task state —
including its completion slot and its registration — is untouched, and no
cleanup runs; hence only the most recent run of a task can settle it. -/
theorem c1_stale_response_discarded (t : WaitTask) (n : Nat) (res : EvalResult)
    (fc : Bool) (h : t.terminated = true ∨ n ≠ t.runCount) :
    (handleRerunResponse t n res fc).task = t ∧
    (handleRerunResponse t n res fc).cleanedUp = false ∧
    (∀ hdl, res = EvalResult.success hdl →
      (handleRerunResponse t n res fc).disposed = true) := by
  have hb : (t.terminated || n != t.runCount) = true := by
    rcases h with h | h
    · simp [h]
    · simp [bne_iff_ne, h]
  refine ⟨?_, ?_, ?_⟩
  · simp [handleRerunResponse, hb]
  · simp [handleRerunResponse, hb]
  · intro hdl hres
    subst hres
    simp [handleRerunResponse, hb, EvalResult.isSuccess]

/-- C2: for a live, current run (not terminated, tag equal to the stored
counter) whose evaluate call failed: a transient realm-death error
(message containing "Execution context was destroyed" or "Cannot find context
with specified id") is swallowed — the task is neither resolved nor rejected
and stays registered; any other error rejects the task's promise with exactly
that error and runs cleanup (timer cancelled, task deregistered). -/
theorem c2_error_classification (t : WaitTask) (n : Nat) (e : JsError) (fc : Bool)
    (hterm : t.terminated = false) (hn : n = t.runCount)
    (hpend : t.promise = none) :
    (isRealmDeathError e = true →
      handleRerunResponse t n (EvalResult.failure e) fc =
        { task := t, disposed := false, cleanedUp := false }) ∧
    (isRealmDeathError e = false →
      (handleRerunResponse t n (EvalResult.failure e) fc).task.promise =
          some (Settled.rejected e) ∧
      (handleRerunResponse t n (EvalResult.failure e) fc).task.inCollection = false ∧
      (handleRerunResponse t n (EvalResult.failure e) fc).task.timerActive = false ∧
      (handleRerunResponse t n (EvalResult.failure e) fc).cleanedUp = true) := by
  have hb : (t.terminated || n != t.runCount) = false := by
    simp [hterm, hn]
  constructor
  · intro hrd
    rcases Bool.or_eq_true_iff.mp hrd with h1 | h2
    · simp [handleRerunResponse, hb, h1]
    · by_cases h1 : includesSub e.message realmDeathMsg1 = true
      · simp [handleRerunResponse, hb, h1]
      · simp [handleRerunResponse, hb, h1, h2]
  · intro hrd
    have h12 := Bool.or_eq_false_iff.mp hrd
    refine ⟨?_, ?_, ?_, ?_⟩ <;>
      simp [handleRerunResponse, hb, h12.1, h12.2, cleanupTask, settleReject, hpend]

/-- C6: for a live, current run whose evaluate call succeeded but whose
returned handle is the falsy/empty sentinel (the remote loop's own timeout
fallback; `falsyCheck` true), the handle is disposed and the task is neither
resolved nor rejected: its state is completely unchanged and no cleanup runs. -/
theorem c6_falsy_sentinel_ignored (t : WaitTask) (n : Nat) (hdl : Nat)
    (hterm : t.terminated = false) (hn : n = t.runCount) :
    handleRerunResponse t n (EvalResult.success hdl) true =
      { task := t, disposed := true, cleanedUp := false } := by
  have hb : (t.terminated || n != t.runCount) = false := by
    simp [hterm, hn]
  simp [handleRerunResponse, hb]

/-- Witness for C1: a success response tagged with run 1 arriving while the
stored counter is 2 leaves the task untouched and is disposed. -/
theorem c1_stale_response_discarded_witness :
    (sampleTask2.terminated = true ∨ 1 ≠ sampleTask2.runCount) ∧
    ((handleRerunResponse sampleTask2 1 (EvalResult.success 7) false).task = sampleTask2 ∧
     (handleRerunResponse sampleTask2 1 (EvalResult.success 7) false).cleanedUp = false ∧
     (∀ hdl, EvalResult.success 7 = EvalResult.success hdl →
       (handleRerunResponse sampleTask2 1 (EvalResult.success 7) false).disposed = true)) :=
  ⟨Or.inr (by decide),
   c1_stale_response_discarded sampleTask2 1 (EvalResult.success 7) false
     (Or.inr (by decide))⟩

/-- Witness for C2: a realm-death error on a live current run is swallowed,
and a generic error rejects and cleans up. -/
theorem c2_error_classification_witness :
    sampleTask1.terminated = false ∧ 1 = sampleTask1.runCount ∧
    sampleTask1.promise = none ∧
    ((isRealmDeathError sampleRealmErr = true →
      handleRerunResponse sampleTask1 1 (EvalResult.failure sampleRealmErr) false =
        { task := sampleTask1, disposed := false, cleanedUp := false }) ∧
     (isRealmDeathError sampleRealmErr = false →
      (handleRerunResponse sampleTask1 1 (EvalResult.failure sampleRealmErr) false).task.promise =
          some (Settled.rejected sampleRealmErr) ∧
      (handleRerunResponse sampleTask1 1 (EvalResult.failure sampleRealmErr) false).task.inCollection = false ∧
      (handleRerunResponse sampleTask1 1 (EvalResult.failure sampleRealmErr) false).task.timerActive = false ∧
      (handleRerunResponse sampleTask1 1 (EvalResult.failure sampleRealmErr) false).cleanedUp = true)) :=
  ⟨rfl, rfl, rfl,
   c2_error_classification sampleTask1 1 sampleRealmErr false rfl rfl rfl⟩

/-- Witness for C6: the falsy-sentinel success response on a live current run
is disposed and ignored. -/
theorem c6_falsy_sentinel_ignored_witness :
    sampleTask1.terminated = false ∧ 1 = sampleTask1.runCount ∧
    handleRerunResponse sampleTask1 1 (EvalResult.success 9) true =
      { task := sampleTask1, disposed := true, cleanedUp := false } :=
  ⟨rfl, rfl, c6_falsy_sentinel_ignored sampleTask1 1 9 rfl rfl⟩

/-- C10: `_setContext` with a non-null context unconditionally invokes
`_contextResolveCallback`, which the bind itself nulls, so a successful bind
requires the callback to be present (the unbound state) and a second bind
without an intervening unbind throws instead of rebinding; after an unbind
the bind succeeds again. -/
theorem c10_bind_requires_unbound (w : World) (c c' : Nat) (w' : World)
    (calls : List (Nat × Nat)) (hbind : bindW w c = Except.ok (w', calls)) :
    w.callbackPresent = true ∧ w'.callbackPresent = false ∧
    (∃ msg, bindW w' c' = Except.error msg) ∧
    (∃ w3 calls3, bindW (unbindW w') c' = Except.ok (w3, calls3)) := by
  by_cases hcb : w.callbackPresent
  · have hw' : w' = bindWorld w c := by
      simp [bindW, hcb] at hbind
      exact hbind.1.symm
    refine ⟨hcb, ?_, ?_, ?_⟩
    · rw [hw']; rfl
    · refine ⟨"TypeError: Cannot read properties of null (reading call)", ?_⟩
      rw [hw']; rfl
    · refine ⟨bindWorld (unbindW w') c', bindCalls (unbindW w'), ?_⟩
      simp [bindW, unbindW]
  · simp [bindW, hcb] at hbind

/-- C3: a successful bind issues exactly one fresh `rerun` per registered
task — the issued call list is precisely one (task, old run counter + 1)
entry per registered task, of the same length as the registered collection —
each registered task's stored counter is bumped, and the current
`_contextPromise` is fulfilled with that same new context, waking every
accessor suspended on it. -/
theorem c3_bind_reruns_all_tasks (w : World) (c : Nat) (w' : World)
    (calls : List (Nat × Nat)) (h : bindW w c = Except.ok (w', calls)) :
    calls = (w.tasks.filter (fun p => p.2.inCollection)).map
      (fun p => (p.1, p.2.runCount + 1)) ∧
    calls.length = (w.tasks.filter (fun p => p.2.inCollection)).length ∧
    (∀ p ∈ w.tasks, p.2.inCollection = true →
      (p.1, { p.2 with runCount := p.2.runCount + 1 }) ∈ w'.tasks) ∧
    w'.resolutions w.contextGen = some c ∧
    w'.contextGen = w.contextGen ∧ w'.callbackPresent = false := by
  by_cases hcb : w.callbackPresent
  · simp [bindW, hcb] at h
    obtain ⟨hw, hc⟩ := h
    subst hw
    refine ⟨?_, ?_, ?_, ?_, rfl, rfl⟩
    · rw [← hc]; rfl
    · rw [← hc]
      simp [bindCalls]
    · intro p hp hreg
      refine List.mem_map.mpr ⟨p, hp, ?_⟩
      simp [hreg]
    · simp [bindWorld]
  · simp [bindW, hcb] at h

/-- C5: when the armed local timer of a pending registered task fires, the
task settles exactly once with a `TimeoutError` whose message carries the
wait's title and the timeout in ms, the timer is cancelled, the task is
removed from the collection, and a late success response arriving afterwards
is disposed without re-settling the task. -/
theorem c5_timeout_settles_once (w : World) (id : Nat) (t : WaitTask)
    (n hdl : Nat) (fc : Bool) (hmem : (id, t) ∈ w.tasks)
    (hpend : t.promise = none) (htimer : t.timerActive = true) :
    ((id, terminateTask t (timeoutErrorFor t.title t.timeout)) ∈
      (fireTimeout w id).tasks) ∧
    (terminateTask t (timeoutErrorFor t.title t.timeout)).promise =
      some (Settled.rejected (timeoutErrorFor t.title t.timeout)) ∧
    (timeoutErrorFor t.title t.timeout).name = "TimeoutError" ∧
    (timeoutErrorFor t.title t.timeout).message =
      "waiting for " ++ t.title ++ " failed: timeout " ++
        toString t.timeout ++ "ms exceeded" ∧
    (terminateTask t (timeoutErrorFor t.title t.timeout)).inCollection = false ∧
    (terminateTask t (timeoutErrorFor t.title t.timeout)).timerActive = false ∧
    handleRerunResponse (terminateTask t (timeoutErrorFor t.title t.timeout)) n
        (EvalResult.success hdl) fc =
      { task := terminateTask t (timeoutErrorFor t.title t.timeout),
        disposed := true, cleanedUp := false } := by
  refine ⟨?_, ?_, rfl, rfl, rfl, rfl, ?_⟩
  · refine List.mem_map.mpr ⟨(id, t), hmem, ?_⟩
    simp [htimer]
  · simp [terminateTask, cleanupTask, settleReject, hpend]
  · simp [handleRerunResponse, terminateTask, cleanupTask, EvalResult.isSuccess]

/-- The response handler either leaves the task record untouched or
deregisters it (the settle branches run `_cleanup`). -/
theorem handleRerunResponse_task_cases (t : WaitTask) (n : Nat)
    (res : EvalResult) (fc : Bool) :
    (handleRerunResponse t n res fc).task = t ∨
    (handleRerunResponse t n res fc).task.inCollection = false := by
  unfold handleRerunResponse
  by_cases hb : (t.terminated || n != t.runCount) = true
  · simp [hb]
  · rw [if_neg hb]
    cases res with
    | success h =>
      cases fc with
      | true => simp
      | false => simp [cleanupTask]
    | failure e =>
      by_cases h1 : includesSub e.message realmDeathMsg1 = true
      · simp [h1]
      · by_cases h2 : includesSub e.message realmDeathMsg2 = true
        · simp [h1, h2]
        · simp [h1, h2, cleanupTask]

/-- A task that is still registered after the response handler ran was left
untouched by it. -/
theorem handleRerunResponse_reg_stable (t : WaitTask) (n : Nat)
    (res : EvalResult) (fc : Bool)
    (hreg : (handleRerunResponse t n res fc).task.inCollection = true) :
    (handleRerunResponse t n res fc).task = t := by
  rcases handleRerunResponse_task_cases t n res fc with he | he
  · exact he
  · rw [he] at hreg
    cases hreg

/-- Delivering an evaluate response preserves the world invariants. -/
theorem worldInv_deliverResponse (w : World) (ih : WorldInv w) (id n : Nat)
    (res : EvalResult) (fc : Bool) : WorldInv (deliverResponse w id n res fc) := by
  refine ⟨ih.docGen, ih.futureGens, ih.unboundPending, ih.boundResolved, ?_⟩
  intro p hp hreg
  simp only [deliverResponse, updateTask, List.mem_map] at hp
  obtain ⟨q, hq, hfq⟩ := hp
  by_cases hqi : q.1 = id
  · rw [if_pos hqi] at hfq
    subst hfq
    simp only at hreg ⊢
    have hstable := handleRerunResponse_reg_stable q.2 n res fc hreg
    rw [hstable] at hreg ⊢
    exact ih.regPending q hq hreg
  · rw [if_neg hqi] at hfq
    subst hfq
    exact ih.regPending q hq hreg

/-- Firing the local timeout timer preserves the world invariants. -/
theorem worldInv_fireTimeout (w : World) (ih : WorldInv w) (id : Nat) :
    WorldInv (fireTimeout w id) := by
  refine ⟨ih.docGen, ih.futureGens, ih.unboundPending, ih.boundResolved, ?_⟩
  intro p hp hreg
  simp only [fireTimeout, updateTask, List.mem_map] at hp
  obtain ⟨q, hq, hfq⟩ := hp
  by_cases hqi : q.1 = id
  · rw [if_pos hqi] at hfq
    subst hfq
    simp only at hreg ⊢
    by_cases ht : q.2.timerActive
    · rw [if_pos ht] at hreg
      simp [terminateTask, cleanupTask] at hreg
    · rw [if_neg ht] at hreg ⊢
      exact ih.regPending q hq hreg
  · rw [if_neg hqi] at hfq
    subst hfq
    exact ih.regPending q hq hreg

/-- Detaching preserves the world invariants. -/
theorem worldInv_detachW (w : World) (ih : WorldInv w) : WorldInv (detachW w) := by
  refine ⟨ih.docGen, ih.futureGens, ih.unboundPending, ih.boundResolved, ?_⟩
  intro p hp hreg
  simp only [detachW, List.mem_map] at hp
  obtain ⟨q, hq, hfq⟩ := hp
  by_cases hqc : q.2.inCollection
  · rw [if_pos hqc] at hfq
    subst hfq
    simp [terminateTask, cleanupTask] at hreg
  · rw [if_neg hqc] at hfq
    subst hfq
    exact ih.regPending q hq hreg

/-- Registering a fresh task preserves the world invariants. -/
theorem worldInv_appendNewTask (w : World) (ih : WorldInv w)
    (pol : PollingInput) (ti : String) (tmo : Nat) (id : Nat) :
    WorldInv { w with tasks := w.tasks ++ [(id, newTask pol ti tmo)] } := by
  refine ⟨ih.docGen, ih.futureGens, ih.unboundPending, ih.boundResolved, ?_⟩
  intro p hp hreg
  simp only [List.mem_append, List.mem_singleton] at hp
  rcases hp with hp | hp
  · exact ih.regPending p hp hreg
  · subst hp
    exact ⟨rfl, rfl⟩

/-- Unbinding preserves the world invariants. -/
theorem worldInv_unbindW (w : World) (ih : WorldInv w) : WorldInv (unbindW w) := by
  refine ⟨?_, ?_, ?_, ?_, ?_⟩
  · intro g hg
    simp [unbindW] at hg
  · intro g hg
    exact ih.futureGens g (Nat.lt_of_succ_lt hg)
  · intro _
    exact ih.futureGens (w.contextGen + 1) (Nat.lt_succ_self _)
  · intro hcb
    simp [unbindW] at hcb
  · intro p hp hreg
    exact ih.regPending p hp hreg

/-- A successful bind preserves the world invariants. -/
theorem worldInv_bindWorld (w : World) (ih : WorldInv w) (c : Nat) :
    WorldInv (bindWorld w c) := by
  refine ⟨?_, ?_, ?_, ?_, ?_⟩
  · intro g hg
    exact ih.docGen g hg
  · intro g hg
    have hne : ¬g = w.contextGen := Nat.ne_of_gt hg
    simp only [bindWorld]
    rw [if_neg hne]
    exact ih.futureGens g hg
  · intro hcb
    simp [bindWorld] at hcb
  · intro _
    refine ⟨c, ?_⟩
    simp [bindWorld]
  · intro p hp hreg
    simp only [bindWorld, List.mem_map] at hp
    obtain ⟨q, hq, hfq⟩ := hp
    by_cases hqc : q.2.inCollection
    · rw [if_pos hqc] at hfq
      subst hfq
      simp only at hreg ⊢
      exact ih.regPending q hq hqc
    · rw [if_neg hqc] at hfq
      subst hfq
      exact ih.regPending q hq hreg

/-- Every reachable world satisfies the invariants. -/
theorem reachable_worldInv (w : World) (h : Reachable w) : WorldInv w := by
  induction h with
  | init url =>
    refine ⟨?_, ?_, ?_, ?_, ?_⟩
    · intro g hg
      simp [initWorld, unbindW] at hg
    · intro g _
      rfl
    · intro _
      rfl
    · intro hcb
      simp [initWorld, unbindW] at hcb
    · intro p hp
      simp [initWorld, unbindW] at hp
  | unbind h ih => exact worldInv_unbindW _ ih
  | bind c h hb ih =>
    rename_i w₀ w' calls
    by_cases hcb : w₀.callbackPresent
    · simp only [bindW, hcb, if_pos] at hb
      cases hb
      exact worldInv_bindWorld _ ih c
    · simp [bindW, hcb] at hb
  | detach h ih => exact worldInv_detachW _ ih
  | doc h hd ih =>
    rename_i w₀ w' g
    cases hdp : w₀.documentPromise with
    | some g0 =>
      simp only [documentCallW, hdp] at hd
      cases hd
      exact ih
    | none =>
      by_cases hdet : w₀.detached
      · simp [documentCallW, hdp, executionContextW, hdet] at hd
      · simp only [documentCallW, hdp, executionContextW, hdet, if_neg,
          Bool.false_eq_true, if_false] at hd
        cases hd
        refine ⟨?_, ih.futureGens, ih.unboundPending, ih.boundResolved, ?_⟩
        · intro g1 hg1
          simp only at hg1
          cases hg1
          rfl
        · intro p hp hreg
          exact ih.regPending p hp hreg
  | create pol ti tmo id h hc ih =>
    rename_i w₀ w' pend
    cases hval : validatePolling pol with
    | error e => simp [createWaitTask, hval] at hc
    | ok u =>
      by_cases hdet : w₀.detached
      · simp only [createWaitTask, hval] at hc
        rw [if_pos hdet] at hc
        cases hc
        exact worldInv_deliverResponse _
          (worldInv_appendNewTask _ ih pol ti tmo id) _ _ _ _
      · simp only [createWaitTask, hval] at hc
        rw [if_neg hdet] at hc
        cases hc
        exact worldInv_appendNewTask _ ih pol ti tmo id
  | deliver id n res fc h ih => exact worldInv_deliverResponse _ ih id n res fc
  | timer id h ih => exact worldInv_fireTimeout _ ih id

/-- C4: detaching a reachable world settles every registered (hence pending)
task with the detachment error and deregisters it, leaves the task collection
empty, and a wait request issued after detachment fails immediately — the new
task's promise is rejected with the detached-frame error, no remote call is
issued, and the task does not stay registered.  (The two `includesSub`
hypotheses state that the frame URL does not itself contain a transient-realm
error pattern, which holds for any real URL.) -/
theorem c4_detach_settles_all (w : World) (hr : Reachable w)
    (hu1 : includesSub (detachedCtxMsg w.frameUrl) realmDeathMsg1 = false)
    (hu2 : includesSub (detachedCtxMsg w.frameUrl) realmDeathMsg2 = false) :
    (∀ p ∈ w.tasks, p.2.inCollection = true →
      (p.1, terminateTask p.2 detachError) ∈ (detachW w).tasks ∧
      (terminateTask p.2 detachError).promise =
        some (Settled.rejected detachError) ∧
      (terminateTask p.2 detachError).inCollection = false) ∧
    (∀ p ∈ (detachW w).tasks, p.2.inCollection = false) ∧
    (∀ pol ti tmo id w' pend,
      createWaitTask (detachW w) pol ti tmo id = Except.ok (w', pend) →
      pend = none ∧
      ∃ t, (id, t) ∈ w'.tasks ∧ t.inCollection = false ∧
        t.promise = some (Settled.rejected
          { name := "Error", message := detachedCtxMsg w.frameUrl })) := by
  have ih := reachable_worldInv w hr
  refine ⟨?_, ?_, ?_⟩
  · intro p hp hpc
    refine ⟨?_, ?_, rfl⟩
    · simp only [detachW, List.mem_map]
      exact ⟨p, hp, by rw [if_pos hpc]⟩
    · simp [terminateTask, cleanupTask, settleReject, (ih.regPending p hp hpc).1]
  · intro p hp
    simp only [detachW, List.mem_map] at hp
    obtain ⟨q, hq, hfq⟩ := hp
    by_cases hqc : q.2.inCollection
    · rw [if_pos hqc] at hfq
      subst hfq
      rfl
    · rw [if_neg hqc] at hfq
      subst hfq
      exact Bool.not_eq_true _ ▸ hqc
  · intro pol ti tmo id w' pend hc
    cases hval : validatePolling pol with
    | error e => simp [createWaitTask, hval] at hc
    | ok u =>
      have hdet : (detachW w).detached = true := rfl
      simp only [createWaitTask, hval] at hc
      rw [if_pos hdet] at hc
      cases hc
      refine ⟨rfl, ?_⟩
      refine ⟨cleanupTask { newTask pol ti tmo with
        promise := some (Settled.rejected
          { name := "Error", message := detachedCtxMsg w.frameUrl }) }, ?_, rfl, rfl⟩
      simp only [deliverResponse, updateTask, List.mem_map]
      refine ⟨(id, newTask pol ti tmo), ?_, ?_⟩
      · exact List.mem_append.mpr (Or.inr (List.mem_singleton.mpr rfl))
      · rw [if_pos rfl]
        simp [handleRerunResponse, newTask, detachW, hu1, hu2, settleReject]

/-- C7 counterexample: an accessor that called `executionContext()` on the
freshly created (unbound) world holds the pending context promise of
generation 1; detaching the world leaves that promise unresolved — the
source's `_detach` never settles `_contextPromise`, so the suspended accessor
is not failed with a detachment error, contradicting the claim. -/
theorem c7_counterexample :
    executionContextW (initWorld "about:blank") = Except.ok 1 ∧
    (initWorld "about:blank").resolutions 1 = none ∧
    (detachW (initWorld "about:blank")).detached = true ∧
    (detachW (initWorld "about:blank")).resolutions 1 = none :=
  ⟨rfl, rfl, rfl, rfl⟩

/-- C7 (amended): the accessor throws the detached-frame error when the world
is already detached at call time; otherwise it returns the current context
promise, which is resolved (immediate) exactly when the world is bound and
pending (suspending) exactly when it is unbound; detaching never settles any
context promise, so an accessor suspended at detachment time simply remains
pending. -/
theorem c7_accessor_amended (w : World) (hr : Reachable w) :
    (w.detached = true →
      executionContextW w = Except.error
        { name := "Error", message := detachedCtxMsg w.frameUrl }) ∧
    (w.detached = false → executionContextW w = Except.ok w.contextGen) ∧
    (w.callbackPresent = false → ∃ c, w.resolutions w.contextGen = some c) ∧
    (w.callbackPresent = true → w.resolutions w.contextGen = none) ∧
    (detachW w).resolutions = w.resolutions ∧
    (detachW w).contextGen = w.contextGen ∧
    (detachW w).callbackPresent = w.callbackPresent := by
  have ih := reachable_worldInv w hr
  refine ⟨?_, ?_, ih.boundResolved, ih.unboundPending, rfl, rfl, rfl⟩
  · intro hd
    simp [executionContextW, hd]
  · intro hd
    simp [executionContextW, hd]

/-- C8 counterexample: binding does not clear the document cache.  Starting
from a fresh world, `_document()` populates the cache; a subsequent bind
succeeds and the cached document promise is still present (`some 1`), so
"after any bind operation, the cached document promise is empty" is false —
the cache is cleared by `_setContext(null)` (unbind), not by bind. -/
theorem c8_counterexample :
    documentCallW c8World0 = Except.ok (c8World1, 1) ∧
    bindW c8World1 7 = Except.ok (bindWorld c8World1 7, bindCalls c8World1) ∧
    (bindWorld c8World1 7).documentPromise = some 1 :=
  ⟨rfl, rfl, rfl⟩

/-- C8 (amended): the document cache is cleared by unbind (`_setContext(null)`),
not by bind; binding leaves it unchanged.  Nevertheless the pairing is never
stale: on any reachable world, after a successful bind any cached document
promise chains from the current context-promise generation, which the bind
has just resolved to the new realm — so `_document()` after a bind never
yields a document handle obtained from a previous realm. -/
theorem c8_document_cache_amended (w : World) (hr : Reachable w) (c : Nat) :
    (unbindW w).documentPromise = none ∧
    (∀ w' calls, bindW w c = Except.ok (w', calls) →
      (∀ g, w'.documentPromise = some g →
        g = w'.contextGen ∧ w'.resolutions g = some c) ∧
      (∀ w'' g, documentCallW w' = Except.ok (w'', g) →
        w'.resolutions g = some c)) := by
  have ih := reachable_worldInv w hr
  refine ⟨rfl, ?_⟩
  intro w' calls hb
  by_cases hcb : w.callbackPresent
  · simp only [bindW, hcb, if_pos] at hb
    cases hb
    constructor
    · intro g hg
      have hgc : g = w.contextGen := ih.docGen g hg
      subst hgc
      exact ⟨rfl, by simp [bindWorld]⟩
    · intro w'' g hdoc
      cases hdp : (bindWorld w c).documentPromise with
      | some g0 =>
        simp only [documentCallW, hdp, Except.ok.injEq, Prod.mk.injEq] at hdoc
        obtain ⟨hw'', hg⟩ := hdoc
        subst hg
        have hgc : g0 = w.contextGen := ih.docGen g0 hdp
        simp [bindWorld, hgc]
      | none =>
        by_cases hdet : (bindWorld w c).detached = true
        · simp [documentCallW, hdp, executionContextW, hdet] at hdoc
        · simp only [documentCallW, hdp, executionContextW] at hdoc
          rw [if_neg hdet] at hdoc
          cases hdoc
          simp [bindWorld]
  · simp [bindW, hcb] at hb

/-- Witness for C4 at a concrete reachable world with one registered task. -/
theorem c4_detach_settles_all_witness :
    includesSub (detachedCtxMsg wReach2.frameUrl) realmDeathMsg1 = false ∧
    includesSub (detachedCtxMsg wReach2.frameUrl) realmDeathMsg2 = false ∧
    ((0, terminateTask (newTask (PollingInput.str "raf") "function" 50) detachError) ∈
      (detachW wReach2).tasks ∧
     (terminateTask (newTask (PollingInput.str "raf") "function" 50) detachError).promise =
      some (Settled.rejected detachError)) ∧
    (∀ p ∈ (detachW wReach2).tasks, p.2.inCollection = false) :=
  ⟨by decide, by decide,
   (by
     have h := (c4_detach_settles_all wReach2
        (Reachable.create (PollingInput.str "raf") "function" 50 0
          (Reachable.bind 3 (Reachable.init "about:blank") rfl) rfl)
        (by decide) (by decide)).1
        (0, newTask (PollingInput.str "raf") "function" 50) (by decide) rfl
     exact ⟨h.1, h.2.1⟩),
   (c4_detach_settles_all wReach2
      (Reachable.create (PollingInput.str "raf") "function" 50 0
        (Reachable.bind 3 (Reachable.init "about:blank") rfl) rfl)
      (by decide) (by decide)).2.1⟩

/-- Witness for the amended C7 at concrete worlds: a fresh unbound world's
accessor returns the pending generation-1 promise, and the promise map is
untouched by detach. -/
theorem c7_accessor_amended_witness :
    ((initWorld "about:blank").detached = false →
      executionContextW (initWorld "about:blank") =
        Except.ok (initWorld "about:blank").contextGen) ∧
    ((initWorld "about:blank").callbackPresent = true →
      (initWorld "about:blank").resolutions (initWorld "about:blank").contextGen = none) ∧
    (detachW (initWorld "about:blank")).resolutions = (initWorld "about:blank").resolutions :=
  ⟨(c7_accessor_amended (initWorld "about:blank") (Reachable.init "about:blank")).2.1,
   (c7_accessor_amended (initWorld "about:blank") (Reachable.init "about:blank")).2.2.2.1,
   (c7_accessor_amended (initWorld "about:blank") (Reachable.init "about:blank")).2.2.2.2.1⟩

/-- Witness for the amended C8: with the document cache populated while
unbound, the cache entry after binding context 7 chains from the current
generation, which is resolved to context 7. -/
theorem c8_document_cache_amended_witness :
    (unbindW c8World1).documentPromise = none ∧
    (1 = (bindWorld c8World1 7).contextGen ∧
     (bindWorld c8World1 7).resolutions 1 = some 7) :=
  ⟨(c8_document_cache_amended c8World1 (Reachable.doc (Reachable.init "about:blank") rfl) 7).1,
   ((c8_document_cache_amended c8World1 (Reachable.doc (Reachable.init "about:blank") rfl) 7).2
      (bindWorld c8World1 7) (bindCalls c8World1) rfl).1 1 rfl⟩

/-- Witness for C3: binding context 7 on a world with two registered tasks
issues exactly the two tagged rerun calls and fulfills the current promise. -/
theorem c3_bind_reruns_all_tasks_witness :
    bindCalls wTasks = (wTasks.tasks.filter (fun p => p.2.inCollection)).map
      (fun p => (p.1, p.2.runCount + 1)) ∧
    (bindCalls wTasks).length =
      (wTasks.tasks.filter (fun p => p.2.inCollection)).length ∧
    (∀ p ∈ wTasks.tasks, p.2.inCollection = true →
      (p.1, { p.2 with runCount := p.2.runCount + 1 }) ∈ (bindWorld wTasks 7).tasks) ∧
    (bindWorld wTasks 7).resolutions wTasks.contextGen = some 7 ∧
    (bindWorld wTasks 7).contextGen = wTasks.contextGen ∧
    (bindWorld wTasks 7).callbackPresent = false :=
  c3_bind_reruns_all_tasks wTasks 7 (bindWorld wTasks 7) (bindCalls wTasks) rfl

/-- Witness for C5: task 0's armed timer fires; the task is terminated with
the titled timeout error and a late success response is disposed. -/
theorem c5_timeout_settles_once_witness :
    ((0, terminateTask sampleTask1
        (timeoutErrorFor sampleTask1.title sampleTask1.timeout)) ∈
      (fireTimeout wTasks 0).tasks) ∧
    (terminateTask sampleTask1
        (timeoutErrorFor sampleTask1.title sampleTask1.timeout)).promise =
      some (Settled.rejected (timeoutErrorFor sampleTask1.title sampleTask1.timeout)) ∧
    (timeoutErrorFor sampleTask1.title sampleTask1.timeout).name = "TimeoutError" ∧
    (timeoutErrorFor sampleTask1.title sampleTask1.timeout).message =
      "waiting for " ++ sampleTask1.title ++ " failed: timeout " ++
        toString sampleTask1.timeout ++ "ms exceeded" ∧
    (terminateTask sampleTask1
        (timeoutErrorFor sampleTask1.title sampleTask1.timeout)).inCollection = false ∧
    (terminateTask sampleTask1
        (timeoutErrorFor sampleTask1.title sampleTask1.timeout)).timerActive = false ∧
    handleRerunResponse
        (terminateTask sampleTask1 (timeoutErrorFor sampleTask1.title sampleTask1.timeout))
        1 (EvalResult.success 42) false =
      { task := terminateTask sampleTask1
          (timeoutErrorFor sampleTask1.title sampleTask1.timeout),
        disposed := true, cleanedUp := false } :=
  c5_timeout_settles_once wTasks 0 sampleTask1 1 42 false (by decide) rfl rfl

/-- Witness for C10: after binding context 7, a second bind fails and an
unbind-then-bind succeeds. -/
theorem c10_bind_requires_unbound_witness :
    wTasks.callbackPresent = true ∧
    (bindWorld wTasks 7).callbackPresent = false ∧
    (∃ msg, bindW (bindWorld wTasks 7) 8 = Except.error msg) ∧
    (∃ w3 calls3, bindW (unbindW (bindWorld wTasks 7)) 8 = Except.ok (w3, calls3)) :=
  c10_bind_requires_unbound wTasks 7 8 (bindWorld wTasks 7) (bindCalls wTasks) rfl

/-- The mutation callback maintains: connected exactly while unsettled. -/
theorem mutationStep_inv (st : MutationPoll) (ev : Bool × Option Nat)
    (hinv : st.connected = !st.settled.isSome) :
    (mutationStep st ev).connected = !(mutationStep st ev).settled.isSome := by
  by_cases hc : st.connected = true
  · have hsn : st.settled = none := by
      cases hs : st.settled with
      | none => rfl
      | some x => rw [hs] at hinv; rw [hinv] at hc; cases hc
    cases ht : ev.1 <;> cases hp : ev.2 <;>
      simp [mutationStep, mutationCallback, hc, ht, hp, hsn, fulfillSlot]
  · have hc' : st.connected = false := by
      cases h : st.connected
      · rfl
      · exact absurd h hc
    cases hss : st.settled with
    | none =>
      rw [hc', hss] at hinv
      simp at hinv
    | some x => simp [mutationStep, hc', hss]

/-- A disconnected `pollMutation` state is frozen: no further batch changes it. -/
theorem mutationFold_frozen (l : List (Bool × Option Nat)) (st : MutationPoll)
    (hc : st.connected = false) : l.foldl mutationStep st = st := by
  induction l with
  | nil => rfl
  | cons ev rest ih =>
    rw [List.foldl_cons]
    rw [show mutationStep st ev = st from by simp [mutationStep, hc]]
    exact ih

/-- Once the `pollMutation` promise is fulfilled it stays fulfilled. -/
theorem mutationFold_keeps (l : List (Bool × Option Nat)) (st : MutationPoll)
    (hinv : st.connected = !st.settled.isSome) (hs : st.settled.isSome = true) :
    (l.foldl mutationStep st).settled.isSome = true := by
  have hc : st.connected = false := by rw [hinv, hs]; rfl
  rw [mutationFold_frozen l st hc]
  exact hs

/-- What one batch can do to the slot: fulfill success only from a live batch
whose predicate succeeded with the flag unset, fulfill the sentinel only from
a batch with the flag set. -/
theorem mutationStep_settles (st : MutationPoll) (ev : Bool × Option Nat)
    (hinv : st.connected = !st.settled.isSome) :
    (∀ v, (mutationStep st ev).settled = some (some v) →
      st.settled = some (some v) ∨ (ev.1 = false ∧ ev.2 = some v)) ∧
    ((mutationStep st ev).settled = some none →
      st.settled = some none ∨ ev.1 = true) := by
  by_cases hc : st.connected = true
  · have hsn : st.settled = none := by
      cases hs : st.settled with
      | none => rfl
      | some x => rw [hs] at hinv; rw [hinv] at hc; cases hc
    cases ht : ev.1 <;> cases hp : ev.2 <;>
      constructor <;>
      simp [mutationStep, mutationCallback, hc, ht, hp, hsn, fulfillSlot]
  · have hc' : st.connected = false := by
      cases h : st.connected
      · rfl
      · exact absurd h hc
    constructor <;> intros <;>
      simp_all [mutationStep, hc']

/-- A live batch with the flag set or a truthy predicate fulfills the slot. -/
theorem mutationStep_live (st : MutationPoll) (ev : Bool × Option Nat)
    (hc : st.connected = true)
    (htrig : ev.1 = true ∨ ev.2.isSome = true) :
    (mutationStep st ev).settled.isSome = true := by
  rcases htrig with ht | hp
  · cases hp : ev.2 <;>
      simp [mutationStep, mutationCallback, hc, ht, hp, fulfillSlot] <;>
      cases st.settled <;> simp [fulfillSlot]
  · cases hp' : ev.2 with
    | none => rw [hp'] at hp; cases hp
    | some v =>
      cases ht : ev.1 <;>
        simp [mutationStep, mutationCallback, hc, ht, hp', fulfillSlot] <;>
        cases st.settled <;> simp [fulfillSlot]

/-- Fold version of the connected-iff-unsettled invariant. -/
theorem mutationFold_inv (l : List (Bool × Option Nat)) :
    ∀ st : MutationPoll, st.connected = !st.settled.isSome →
      (l.foldl mutationStep st).connected = !(l.foldl mutationStep st).settled.isSome := by
  induction l with
  | nil => intro st h; exact h
  | cons ev rest ih =>
    intro st h
    rw [List.foldl_cons]
    exact ih _ (mutationStep_inv st ev h)

/-- Fold version of success soundness for `pollMutation`. -/
theorem mutationFold_success (l : List (Bool × Option Nat)) :
    ∀ st : MutationPoll, st.connected = !st.settled.isSome → ∀ v,
      (l.foldl mutationStep st).settled = some (some v) →
      st.settled = some (some v) ∨ ∃ ev ∈ l, ev.1 = false ∧ ev.2 = some v := by
  induction l with
  | nil => intro st _ v h; exact Or.inl h
  | cons ev rest ih =>
    intro st hinv v h
    rw [List.foldl_cons] at h
    rcases ih _ (mutationStep_inv st ev hinv) v h with h' | ⟨ev', hm, he⟩
    · rcases (mutationStep_settles st ev hinv).1 v h' with h'' | h''
      · exact Or.inl h''
      · exact Or.inr ⟨ev, List.mem_cons_self ev rest, h''⟩
    · exact Or.inr ⟨ev', List.mem_cons_of_mem ev hm, he⟩

/-- Fold version of sentinel soundness for `pollMutation`. -/
theorem mutationFold_sentinel (l : List (Bool × Option Nat)) :
    ∀ st : MutationPoll, st.connected = !st.settled.isSome →
      (l.foldl mutationStep st).settled = some none →
      st.settled = some none ∨ ∃ ev ∈ l, ev.1 = true := by
  induction l with
  | nil => intro st _ h; exact Or.inl h
  | cons ev rest ih =>
    intro st hinv h
    rw [List.foldl_cons] at h
    rcases ih _ (mutationStep_inv st ev hinv) h with h' | ⟨ev', hm, he⟩
    · rcases (mutationStep_settles st ev hinv).2 h' with h'' | h''
      · exact Or.inl h''
      · exact Or.inr ⟨ev, List.mem_cons_self ev rest, h''⟩
    · exact Or.inr ⟨ev', List.mem_cons_of_mem ev hm, he⟩

/-- Fold version of liveness for `pollMutation`: a batch with the flag set or
a truthy predicate guarantees fulfillment. -/
theorem mutationFold_live (l : List (Bool × Option Nat)) :
    ∀ st : MutationPoll, st.connected = !st.settled.isSome →
      (∃ ev ∈ l, ev.1 = true ∨ ev.2.isSome = true) →
      (l.foldl mutationStep st).settled.isSome = true := by
  induction l with
  | nil =>
    intro st _ h
    rcases h with ⟨ev, hm, _⟩
    cases hm
  | cons ev rest ih =>
    intro st hinv htrig
    rw [List.foldl_cons]
    rcases htrig with ⟨ev', hm, ht⟩
    rcases List.mem_cons.mp hm with he | hm'
    · subst he
      by_cases hc : st.connected = true
      · exact mutationFold_keeps rest _ (mutationStep_inv st ev' hinv)
          (mutationStep_live st ev' hc ht)
      · have hc' : st.connected = false := by
          cases h : st.connected
          · rfl
          · exact absurd h hc
        have hs : st.settled.isSome = true := by
          rw [hc'] at hinv
          cases hss : st.settled with
          | none => rw [hss] at hinv; cases hinv
          | some x => rfl
        exact mutationFold_keeps rest _ (mutationStep_inv st ev' hinv)
          (by rw [show mutationStep st ev' = st from by simp [mutationStep, hc']]; exact hs)
    · exact ih _ (mutationStep_inv st ev hinv) ⟨ev', hm', ht⟩

/-- The tick loop maintains: looping exactly while unsettled. -/
theorem tickStep_inv (st : TickPoll) (ev : Bool × Option Nat)
    (hinv : st.looping = !st.settled.isSome) :
    (tickStep st ev).looping = !(tickStep st ev).settled.isSome := by
  by_cases hc : st.looping = true
  · have hsn : st.settled = none := by
      cases hs : st.settled with
      | none => rfl
      | some x => rw [hs] at hinv; rw [hinv] at hc; cases hc
    cases ht : ev.1 <;> cases hp : ev.2 <;>
      simp [tickStep, hc, ht, hp, hsn, fulfillSlot]
  · have hc' : st.looping = false := by
      cases h : st.looping
      · rfl
      · exact absurd h hc
    cases hss : st.settled with
    | none =>
      rw [hc', hss] at hinv
      simp at hinv
    | some x => simp [tickStep, hc', hss]

/-- A stopped tick loop is frozen. -/
theorem tickFold_frozen (l : List (Bool × Option Nat)) (st : TickPoll)
    (hc : st.looping = false) : l.foldl tickStep st = st := by
  induction l with
  | nil => rfl
  | cons ev rest ih =>
    rw [List.foldl_cons]
    rw [show tickStep st ev = st from by simp [tickStep, hc]]
    exact ih

/-- Once the tick loop's promise is fulfilled it stays fulfilled. -/
theorem tickFold_keeps (l : List (Bool × Option Nat)) (st : TickPoll)
    (hinv : st.looping = !st.settled.isSome) (hs : st.settled.isSome = true) :
    (l.foldl tickStep st).settled.isSome = true := by
  have hc : st.looping = false := by rw [hinv, hs]; rfl
  rw [tickFold_frozen l st hc]
  exact hs

/-- What one tick can do to the slot. -/
theorem tickStep_settles (st : TickPoll) (ev : Bool × Option Nat)
    (hinv : st.looping = !st.settled.isSome) :
    (∀ v, (tickStep st ev).settled = some (some v) →
      st.settled = some (some v) ∨ (ev.1 = false ∧ ev.2 = some v)) ∧
    ((tickStep st ev).settled = some none →
      st.settled = some none ∨ ev.1 = true) := by
  by_cases hc : st.looping = true
  · have hsn : st.settled = none := by
      cases hs : st.settled with
      | none => rfl
      | some x => rw [hs] at hinv; rw [hinv] at hc; cases hc
    cases ht : ev.1 <;> cases hp : ev.2 <;>
      constructor <;>
      simp [tickStep, hc, ht, hp, hsn, fulfillSlot]
  · have hc' : st.looping = false := by
      cases h : st.looping
      · rfl
      · exact absurd h hc
    constructor <;> intros <;>
      simp_all [tickStep, hc']

/-- A live tick with the flag set or a truthy predicate fulfills the slot. -/
theorem tickStep_live (st : TickPoll) (ev : Bool × Option Nat)
    (hc : st.looping = true)
    (htrig : ev.1 = true ∨ ev.2.isSome = true) :
    (tickStep st ev).settled.isSome = true := by
  rcases htrig with ht | hp
  · simp [tickStep, hc, ht, fulfillSlot]
    cases st.settled <;> simp [fulfillSlot]
  · cases hp' : ev.2 with
    | none => rw [hp'] at hp; cases hp
    | some v =>
      cases ht : ev.1 <;>
        simp [tickStep, hc, ht, hp', fulfillSlot] <;>
        cases st.settled <;> simp [fulfillSlot]

/-- Fold version of the looping-iff-unsettled invariant. -/
theorem tickFold_inv (l : List (Bool × Option Nat)) :
    ∀ st : TickPoll, st.looping = !st.settled.isSome →
      (l.foldl tickStep st).looping = !(l.foldl tickStep st).settled.isSome := by
  induction l with
  | nil => intro st h; exact h
  | cons ev rest ih =>
    intro st h
    rw [List.foldl_cons]
    exact ih _ (tickStep_inv st ev h)

/-- Fold version of success soundness for the tick loops. -/
theorem tickFold_success (l : List (Bool × Option Nat)) :
    ∀ st : TickPoll, st.looping = !st.settled.isSome → ∀ v,
      (l.foldl tickStep st).settled = some (some v) →
      st.settled = some (some v) ∨ ∃ ev ∈ l, ev.1 = false ∧ ev.2 = some v := by
  induction l with
  | nil => intro st _ v h; exact Or.inl h
  | cons ev rest ih =>
    intro st hinv v h
    rw [List.foldl_cons] at h
    rcases ih _ (tickStep_inv st ev hinv) v h with h' | ⟨ev', hm, he⟩
    · rcases (tickStep_settles st ev hinv).1 v h' with h'' | h''
      · exact Or.inl h''
      · exact Or.inr ⟨ev, List.mem_cons_self ev rest, h''⟩
    · exact Or.inr ⟨ev', List.mem_cons_of_mem ev hm, he⟩

/-- Fold version of sentinel soundness for the tick loops. -/
theorem tickFold_sentinel (l : List (Bool × Option Nat)) :
    ∀ st : TickPoll, st.looping = !st.settled.isSome →
      (l.foldl tickStep st).settled = some none →
      st.settled = some none ∨ ∃ ev ∈ l, ev.1 = true := by
  induction l with
  | nil => intro st _ h; exact Or.inl h
  | cons ev rest ih =>
    intro st hinv h
    rw [List.foldl_cons] at h
    rcases ih _ (tickStep_inv st ev hinv) h with h' | ⟨ev', hm, he⟩
    · rcases (tickStep_settles st ev hinv).2 h' with h'' | h''
      · exact Or.inl h''
      · exact Or.inr ⟨ev, List.mem_cons_self ev rest, h''⟩
    · exact Or.inr ⟨ev', List.mem_cons_of_mem ev hm, he⟩

/-- Fold version of liveness for the tick loops. -/
theorem tickFold_live (l : List (Bool × Option Nat)) :
    ∀ st : TickPoll, st.looping = !st.settled.isSome →
      (∃ ev ∈ l, ev.1 = true ∨ ev.2.isSome = true) →
      (l.foldl tickStep st).settled.isSome = true := by
  induction l with
  | nil =>
    intro st _ h
    rcases h with ⟨ev, hm, _⟩
    cases hm
  | cons ev rest ih =>
    intro st hinv htrig
    rw [List.foldl_cons]
    rcases htrig with ⟨ev', hm, ht⟩
    rcases List.mem_cons.mp hm with he | hm'
    · subst he
      by_cases hc : st.looping = true
      · exact tickFold_keeps rest _ (tickStep_inv st ev' hinv)
          (tickStep_live st ev' hc ht)
      · have hc' : st.looping = false := by
          cases h : st.looping
          · rfl
          · exact absurd h hc
        have hs : st.settled.isSome = true := by
          rw [hc'] at hinv
          cases hss : st.settled with
          | none => rw [hss] at hinv; cases hinv
          | some x => rfl
        exact tickFold_keeps rest _ (tickStep_inv st ev' hinv)
          (by rw [show tickStep st ev' = st from by simp [tickStep, hc']]; exact hs)
    · exact ih _ (tickStep_inv st ev hinv) ⟨ev', hm', ht⟩

/-- C9 counterexample: a `pollMutation` invocation whose predicate is
initially false and for which no mutation batch ever occurs never fulfills at
all — the remote deadline only sets a flag that nothing but the mutation
callback reads, so there is no fulfillment "on timeout" (zero fulfillments,
refuting "exactly one fulfillment occurs for every invocation").  The flag
only takes effect at the next mutation batch, where the sentinel is then
fulfilled. -/
theorem c9_counterexample :
    (pollMutationRun none []).settled = none ∧
    (pollMutationRun none []).connected = true ∧
    (pollMutationRun none [(true, none)]).settled = some none :=
  ⟨rfl, rfl, rfl⟩

/-- C9 (amended): per invocation, at most one fulfillment occurs and the
loops never reject — a fulfillment carries either a truthy predicate value
(observed at the initial check or at a batch/tick with the flag unset) or
the empty sentinel, the latter only when the timed-out flag was observed set
at some mutation batch (resp. tick); the mutation observer is disconnected
whenever the promise is fulfilled; and fulfillment is guaranteed as soon as
the predicate succeeds initially, or some batch/tick sees the flag set or
the predicate truthy — but the mutation strategy notices the flag only at a
mutation batch, never at the instant of timeout itself. -/
theorem c9_poll_loops_amended (p0 : Option Nat)
    (events ticks ticksI : List (Bool × Option Nat)) (v : Nat) :
    ((pollMutationRun p0 events).settled = some (some v) →
      p0 = some v ∨ ∃ ev ∈ events, ev.1 = false ∧ ev.2 = some v) ∧
    ((pollMutationRun p0 events).settled = some none →
      ∃ ev ∈ events, ev.1 = true) ∧
    ((pollMutationRun p0 events).settled.isSome = true →
      (pollMutationRun p0 events).connected = false) ∧
    ((p0.isSome = true ∨ ∃ ev ∈ events, ev.1 = true ∨ ev.2.isSome = true) →
      (pollMutationRun p0 events).settled.isSome = true) ∧
    ((pollRafRun ticks).settled = some (some v) →
      ∃ tk ∈ ticks, tk.1 = false ∧ tk.2 = some v) ∧
    ((pollRafRun ticks).settled = some none → ∃ tk ∈ ticks, tk.1 = true) ∧
    ((∃ tk ∈ ticks, tk.1 = true ∨ tk.2.isSome = true) →
      (pollRafRun ticks).settled.isSome = true) ∧
    ((pollIntervalRun ticksI).settled = some (some v) →
      ∃ tk ∈ ticksI, tk.1 = false ∧ tk.2 = some v) ∧
    ((pollIntervalRun ticksI).settled = some none → ∃ tk ∈ ticksI, tk.1 = true) ∧
    ((∃ tk ∈ ticksI, tk.1 = true ∨ tk.2.isSome = true) →
      (pollIntervalRun ticksI).settled.isSome = true) := by
  refine ⟨?_, ?_, ?_, ?_, ?_, ?_, ?_, ?_, ?_, ?_⟩
  · intro h
    cases p0 with
    | some w =>
      simp only [pollMutationRun, Option.some.injEq] at h
      exact Or.inl (by rw [← h.symm])
    | none =>
      rcases mutationFold_success events { settled := none, connected := true } rfl v h with
        h' | h'
      · cases h'
      · exact Or.inr h'
  · intro h
    cases p0 with
    | some w => simp [pollMutationRun] at h
    | none =>
      rcases mutationFold_sentinel events { settled := none, connected := true } rfl h with
        h' | h'
      · cases h'
      · exact h'
  · intro h
    cases p0 with
    | some w => rfl
    | none =>
      have hh := mutationFold_inv events { settled := none, connected := true } rfl
      have h' : (List.foldl mutationStep
          { settled := none, connected := true } events).settled.isSome = true := h
      show (List.foldl mutationStep
          { settled := none, connected := true } events).connected = false
      rw [hh, h']
      rfl
  · intro h
    cases p0 with
    | some w => rfl
    | none =>
      rcases h with h | h
      · cases h
      · exact mutationFold_live events { settled := none, connected := true } rfl h
  · intro h
    rcases tickFold_success ticks { settled := none, looping := true } rfl v h with h' | h'
    · cases h'
    · exact h'
  · intro h
    rcases tickFold_sentinel ticks { settled := none, looping := true } rfl h with h' | h'
    · cases h'
    · exact h'
  · intro h
    exact tickFold_live ticks { settled := none, looping := true } rfl h
  · intro h
    rcases tickFold_success ticksI { settled := none, looping := true } rfl v h with h' | h'
    · cases h'
    · exact h'
  · intro h
    rcases tickFold_sentinel ticksI { settled := none, looping := true } rfl h with h' | h'
    · cases h'
    · exact h'
  · intro h
    exact tickFold_live ticksI { settled := none, looping := true } rfl h

/-- Witness for the amended C9: an initially-true predicate fulfills the
mutation poll, and a first raf tick with the flag set fulfills the sentinel. -/
theorem c9_poll_loops_amended_witness :
    ((some 5 : Option Nat).isSome = true ∨
      ∃ ev ∈ ([] : List (Bool × Option Nat)), ev.1 = true ∨ ev.2.isSome = true) ∧
    (pollMutationRun (some 5) []).settled.isSome = true ∧
    (∃ tk ∈ [(true, (none : Option Nat))], tk.1 = true ∨ tk.2.isSome = true) ∧
    (pollRafRun [(true, none)]).settled.isSome = true :=
  ⟨Or.inl rfl,
   (c9_poll_loops_amended (some 5) [] [(true, none)] [] 0).2.2.2.1 (Or.inl rfl),
   ⟨(true, none), List.mem_singleton.mpr rfl, Or.inl rfl⟩,
   (c9_poll_loops_amended (some 5) [] [(true, none)] [] 0).2.2.2.2.2.2.1
     ⟨(true, none), List.mem_singleton.mpr rfl, Or.inl rfl⟩⟩

end DOMWorldSpec
